import Mathlib

/-!
Verification of the crypto squeeze-scanner (src/crypto.py) against its
natural-language specification.

The program is shallowly embedded: a pandas DataFrame of candles becomes a
`List Candle`, the indicator engine `calculate_metrics` becomes a Lean
function on that list, the universe selector `get_top_liquid_pairs` and the
candle fetcher `get_historical_data` become functions whose network fetch is
an explicit `Option` argument (`none` = the request raised), and the
`Start Scan` loop becomes `scan`.  Machine floats are modelled as exact
rationals; `pandas.Series.std`, which takes a square root, is modelled with
`Real.sqrt` over the exact sample variance.  Python `list.sort` (documented
stable) is modelled as a stable insertion sort; `DataFrame.sort_values`
with its default unstable quicksort guarantees only a non-decreasing
permutation of the rows, so its model below is one admissible deterministic
implementation and the theorems about it use only sortedness, permutation
and distinct-key inputs — properties every admissible tie order shares.
-/

/-- One OHLCV candle (one row of the DataFrame built from
`/v2/history/candles`): fields time, open, high, low, close, volume. -/
structure Candle where
  time : Int
  open_ : ℚ
  high : ℚ
  low : ℚ
  close : ℚ
  volume : ℚ
deriving DecidableEq

/-- The close column `df['close']` (after `astype(float)`, which is the
identity in this exact-arithmetic model). -/
def closes (df : List Candle) : List ℚ := df.map Candle.close

/-- The high column `df['high']`. -/
def highs (df : List Candle) : List ℚ := df.map Candle.high

/-- The low column `df['low']`. -/
def lows (df : List Candle) : List ℚ := df.map Candle.low

/-- The volume column `df['volume']`. -/
def vols (df : List Candle) : List ℚ := df.map Candle.volume

/-- The trailing 20-element window of a column: the window that backs the
value of `rolling(window=20)` at the last row. -/
def last20 (l : List ℚ) : List ℚ := l.drop (l.length - 20)

/-- Arithmetic mean of a column window (`rolling(...).mean()` at one row). -/
def mean (l : List ℚ) : ℚ := l.sum / (l.length : ℚ)

/-- Sample variance of a column window: `rolling(...).std()` squared.
`pandas` uses the N-1 denominator (ddof = 1). -/
def sampleVar (l : List ℚ) : ℚ :=
  (l.map (fun x => (x - mean l) ^ 2)).sum / ((l.length : ℚ) - 1)

/-- `df['sma20'] = df['close'].rolling(window=20).mean()`, at the last row. -/
def sma20 (df : List Candle) : ℚ := mean (last20 (closes df))

/-- The square of `df['stddev'] = df['close'].rolling(window=20).std()`,
at the last row. -/
def var20 (df : List Candle) : ℚ := sampleVar (last20 (closes df))

/-- `df['bb_upper'] = df['sma20'] + 2.0 * df['stddev']`, at the last row. -/
noncomputable def bb_upper (df : List Candle) : ℝ :=
  (sma20 df : ℝ) + 2 * Real.sqrt (var20 df)

/-- `df['bb_lower'] = df['sma20'] - 2.0 * df['stddev']`, at the last row. -/
noncomputable def bb_lower (df : List Candle) : ℝ :=
  (sma20 df : ℝ) - 2 * Real.sqrt (var20 df)

/-- True Range of the candles after the first, threaded with the previous
close: `tr = max(high - low, |high - prevClose|, |low - prevClose|)`. -/
def trAux (pc : ℚ) : List Candle → List ℚ
  | [] => []
  | c :: rest =>
      max (c.high - c.low) (max |c.high - pc| |c.low - pc|) :: trAux c.close rest

/-- The column `df['tr']`.  The first row has no previous close
(`shift(1)` is NaN there) and `DataFrame.max(axis=1)` skips the NaN, so the
first True Range is just `high - low`. -/
def trList : List Candle → List ℚ
  | [] => []
  | c :: rest => (c.high - c.low) :: trAux c.close rest

/-- `df['atr'] = df['tr'].rolling(window=20).mean()`, at the last row. -/
def atr (df : List Candle) : ℚ := mean (last20 (trList df))

/-- `df['kc_upper'] = df['sma20'] + 1.5 * df['atr']`, at the last row. -/
def kc_upper (df : List Candle) : ℚ := sma20 df + 1.5 * atr df

/-- `df['kc_lower'] = df['sma20'] - 1.5 * df['atr']`, at the last row. -/
def kc_lower (df : List Candle) : ℚ := sma20 df - 1.5 * atr df

/-- `vol_sma = df['volume'].rolling(window=20).mean().iloc[-1]`: the
trailing volume mean, current candle included. -/
def vol_sma (df : List Candle) : ℚ := mean (last20 (vols df))

/-- `df.iloc[-1]['close']`, the last close. -/
def lastClose (df : List Candle) : ℚ := (closes df).getLastD 0

/-- `df.iloc[-1]['volume']`, the last volume. -/
def lastVol (df : List Candle) : ℚ := (vols df).getLastD 0

/-- `df.iloc[-20]['close']`: the close at row `len - 20`, the reference
point of the percent-change computation. -/
def refClose (df : List Candle) : ℚ := (closes df).getD (df.length - 20) 0

/-- The value of the `change_24h` entry:
`((current['close'] - df.iloc[-20]['close']) / df.iloc[-20]['close']) * 100`. -/
def changePct (df : List Candle) : ℚ :=
  (lastClose df - refClose df) / refClose df * 100

/-- The dict `calculate_metrics` returns: entries price, squeeze, bb_width,
volume_spike, change_24h.  The booleans are modelled as `Prop` because the
band comparisons happen in `ℝ`. -/
structure Metrics where
  price : ℚ
  squeeze : Prop
  bb_width : ℝ
  volume_spike : Prop
  change_24h : ℚ

/-- `calculate_metrics(df)` (src/crypto.py lines 92-150): `None` when
`df.empty or len(df) < 21`, otherwise the five metrics of the last candle.
`squeeze` is `(current['bb_upper'] < current['kc_upper']) and
(current['bb_lower'] > current['kc_lower'])`; `volume_spike` is
`current['volume'] > vol_sma`. -/
noncomputable def calculate_metrics (df : List Candle) : Option Metrics :=
  if df.isEmpty = true ∨ df.length < 21 then none
  else some
    { price := lastClose df
      squeeze := bb_upper df < (kc_upper df : ℝ) ∧ (kc_lower df : ℝ) < bb_lower df
      bb_width := bb_upper df - bb_lower df
      volume_spike := vol_sma df < lastVol df
      change_24h := changePct df }

/-- The keys of the dict `calculate_metrics` returns (src/crypto.py lines
144-150), as written in the source, for a given input series: empty when no
dict is returned. -/
def metricsKeys (df : List Candle) : List String :=
  if df.isEmpty = true ∨ df.length < 21 then []
  else ["price", "squeeze", "bb_width", "volume_spike", "change_24h"]

/-- Modelled from the spec: the percent-change formula
`(close[n] - close[n-20]) / close[n-20] * 100` where `n` is the index of
the last candle, so the reference close sits at index `length - 21`.
Stated only to be compared against what the code computes. -/
def spec_percent_change (df : List Candle) : ℚ :=
  ((closes df).getD (df.length - 1) 0 - (closes df).getD (df.length - 21) 0) /
    (closes df).getD (df.length - 21) 0 * 100

/-- `round(x, k)` of the scan loop.  Exact-rational model of Python rounding
to `k` decimal places (Python rounds exact halves to even; no value in this
development sits on an exact half). -/
def roundTo (x : ℚ) (k : ℕ) : ℚ := (round (x * 10 ^ k) : ℤ) / 10 ^ k

/-- `round(x, k)` applied to a real-valued quantity (the band width). -/
noncomputable def roundToR (x : ℝ) (k : ℕ) : ℝ := (round (x * 10 ^ k) : ℤ) / 10 ^ k

/-- One row of the `results` list the scan loop appends
(src/crypto.py lines 188-194): Symbol, Price, Status, rounded 24h change,
rounded Bollinger width. -/
structure ScanRow where
  Symbol : String
  Price : ℚ
  Status : String
  Change : ℚ
  BBWidth : ℝ

open Classical in
/-- The `Start Scan` loop (src/crypto.py lines 174-198).  Each universe
entry carries the candle list its `get_historical_data` call produced (a
failed fetch produced the empty frame).  An instrument is appended exactly
when its metrics exist and `metrics['squeeze'] or metrics['volume_spike']`;
the Status string is `"🔥 SQUEEZE" if metrics['squeeze'] else
"⚠️ VOL SPIKE"`.  No reordering happens afterwards: `st.dataframe` shows
`results` as appended. -/
noncomputable def scan : List (String × List Candle) → List ScanRow
  | [] => []
  | (symbol, df) :: rest =>
    (match calculate_metrics df with
      | none => []
      | some m =>
        if m.squeeze ∨ m.volume_spike then
          [{ Symbol := symbol
             Price := m.price
             Status := if m.squeeze then "🔥 SQUEEZE" else "⚠️ VOL SPIKE"
             Change := roundTo m.change_24h 2
             BBWidth := roundToR m.bb_width 4 }]
        else []) ++ scan rest

/-- The warning `st.warning(...)` shown when `results` is empty
(src/crypto.py line 225); the apostrophes of the source text are omitted. -/
def no_coins_msg : String :=
  "No coins found matching the Blast criteria right now. The market might be trending already."

/-- What the scan block reports after the loop (src/crypto.py lines
203-225): the found-count header when `results` is non-empty, otherwise the
no-coins warning. -/
noncomputable def scanReport (univ : List (String × List Candle)) : String :=
  if (scan univ).isEmpty = true then no_coins_msg
  else "Found " ++ toString (scan univ).length ++ " Coins Ready to Move"

/-- One product of `/v2/products`: the fields `get_top_liquid_pairs`
reads. -/
structure Product where
  symbol : String
  contract_type : String
  state : String
  quoting_asset : String
deriving DecidableEq

/-- The filter of `get_top_liquid_pairs`: active USDT perpetuals only. -/
def isEligiblePerp (p : Product) : Bool :=
  p.contract_type == "perpetual_futures" && p.state == "live" &&
    p.quoting_asset == "USDT"

/-- `vol_map.get(symbol, 0)`: the volume map is a Python dict comprehension,
so a symbol listed twice keeps its last binding; a missing symbol defaults
to `0`. -/
def vol_map_get (tickers : List (String × ℚ)) (s : String) : ℚ :=
  match tickers.reverse.find? (fun t => t.fst == s) with
  | some t => t.snd
  | none => 0

/-- One step of the stable descending-by-volume sort: insert `p` before the
first element whose volume is not above `p`, so equal volumes keep their
original (catalog) order.  Models `perp_products.sort(key=..., reverse=True)`,
which Python guarantees to be stable. -/
def insertByVolDesc (tickers : List (String × ℚ)) (p : Product) :
    List Product → List Product
  | [] => [p]
  | q :: rest =>
      if vol_map_get tickers p.symbol < vol_map_get tickers q.symbol then
        q :: insertByVolDesc tickers p rest
      else p :: q :: rest

/-- Stable sort of the filtered products by descending 24h volume. -/
def sortByVolDesc (tickers : List (String × ℚ)) : List Product → List Product
  | [] => []
  | p :: rest => insertByVolDesc tickers p (sortByVolDesc tickers rest)

/-- `get_top_liquid_pairs(limit)` (src/crypto.py lines 20-51).  The two
network requests are modelled as one explicit argument: `none` when either
request raised (the `except` path, which reports an error and returns `[]`),
`some (prods, tickers)` otherwise.  Filter to live USDT perpetuals, sort by
descending volume (missing symbols count as volume 0), take the first
`limit`. -/
def get_top_liquid_pairs
    (fetch : Option (List Product × List (String × ℚ))) (limit : ℕ) :
    List Product :=
  match fetch with
  | none => []
  | some (prods, tickers) =>
      (sortByVolDesc tickers (prods.filter isEligiblePerp)).take limit

/-- One step of an ascending-by-time insertion sort of fetched candles.
`df.sort_values('time')` uses an unstable quicksort by default, so the
source fixes no order among equal timestamps; this insertion is one
admissible implementation, and no theorem below relies on where a candle
lands within its timestamp class.  Nothing is deduplicated: a candle whose
time equals one already present is inserted next to it. -/
def insertByTime (c : Candle) : List Candle → List Candle
  | [] => [c]
  | d :: rest =>
      if d.time < c.time then d :: insertByTime c rest else c :: d :: rest

/-- Sort of the raw candle list by ascending timestamp: an admissible
implementation of `df.sort_values('time')` (default quicksort), which
guarantees a non-decreasing permutation of the rows and nothing more. -/
def sort_values_time : List Candle → List Candle
  | [] => []
  | c :: rest => insertByTime c (sort_values_time rest)

/-- `get_historical_data` (src/crypto.py lines 53-86) after the fetch: the
response is `none` when the request raised (the `except` path returns an
empty frame), `some data` for the parsed `result` list; a present but empty
`result` also yields the empty frame, otherwise the rows sorted by time. -/
def get_historical_data (resp : Option (List Candle)) : List Candle :=
  match resp with
  | none => []
  | some data =>
      if data.isEmpty = true then [] else sort_values_time data

/-- Column assignment `df[c] = ...` at the level of the column-name list:
appends the name when new, overwrites in place when present. -/
def addCol (cols : List String) (c : String) : List String :=
  if c ∈ cols then cols else cols ++ [c]

/-- The columns `calculate_metrics` assigns on its input frame, in source
order (src/crypto.py lines 100-129): the three `astype` re-assignments and
the eleven derived columns. -/
def assignedCols : List String :=
  ["close", "high", "low", "sma20", "stddev", "bb_upper", "bb_lower",
   "tr1", "tr2", "tr3", "tr", "atr", "kc_upper", "kc_lower"]

/-- The derived columns `calculate_metrics` adds to a standard OHLCV
frame. -/
def derivedCols : List String :=
  ["sma20", "stddev", "bb_upper", "bb_lower", "tr1", "tr2", "tr3", "tr",
   "atr", "kc_upper", "kc_lower"]

/-- The columns of the frame `get_historical_data` returns. -/
def baseCols : List String := ["time", "open", "high", "low", "close", "volume"]

/-- The column list of the caller-owned frame after `calculate_metrics`
ran on it, given its row count `n`: unchanged on the early `None` return,
otherwise every assigned column is present (mutation happens in place on
the argument, not on a copy). -/
def calculate_metrics_cols (cols : List String) (n : ℕ) : List String :=
  if n = 0 ∨ n < 21 then cols else assignedCols.foldl addCol cols

/-- A 21-candle series in a Bollinger squeeze: constant closes (zero
standard deviation) with a true range of 2, so the Bollinger bands sit
strictly inside the Keltner channel; constant volume, so no spike. -/
def sqSeries : List Candle := List.replicate 21 ⟨0, 100, 101, 99, 100, 5⟩

/-- A 21-candle series with no signal at all: every band degenerate
(`bb_upper = kc_upper`, the boundary case) and constant volume. -/
def flatSeries : List Candle := List.replicate 21 ⟨0, 100, 100, 100, 100, 5⟩

/-- A 21-candle series with a volume spike only: degenerate bands, final
volume far above its trailing mean. -/
def vsSeries : List Candle :=
  List.replicate 20 ⟨0, 100, 100, 100, 100, 5⟩ ++ [⟨0, 100, 100, 100, 100, 100⟩]

/-- A series of fewer than 21 candles. -/
def shortSeries : List Candle := List.replicate 5 ⟨0, 100, 100, 100, 100, 5⟩

/-- The synthetic series of the spec: 20 closes of 100 followed by one of
110. -/
def synthSeries : List Candle :=
  List.replicate 20 ⟨0, 100, 100, 100, 100, 5⟩ ++ [⟨0, 110, 110, 110, 110, 5⟩]

/-- A 21-candle series whose first close (200) differs from its second
(100): the spec formula and the code disagree on it. -/
def cexSeries : List Candle :=
  ⟨0, 200, 200, 200, 200, 5⟩ ::
    (List.replicate 19 ⟨0, 100, 100, 100, 100, 5⟩ ++ [⟨0, 110, 110, 110, 110, 5⟩])

/-- The row the scan produces for `("AAA", sqSeries)`. -/
def rowSqueezeA : ScanRow := ⟨"AAA", 100, "🔥 SQUEEZE", 0, 0⟩

/-- The row the scan produces for `("BBB", vsSeries)`. -/
def rowVolSpikeB : ScanRow := ⟨"BBB", 100, "⚠️ VOL SPIKE", 0, 0⟩

/-- The row the scan produces for `("ZZZ", sqSeries)`. -/
def rowSqueezeZ : ScanRow := ⟨"ZZZ", 100, "🔥 SQUEEZE", 0, 0⟩

/-- A two-instrument universe scanned in the order volume-spike first,
squeeze second. -/
def demoBA : List (String × List Candle) := [("BBB", vsSeries), ("AAA", sqSeries)]

/-- A three-instrument universe: X with a failed fetch (empty frame),
Y with too few candles, Z with a valid squeeze. -/
def demoXYZ : List (String × List Candle) :=
  [("XXX", []), ("YYY", shortSeries), ("ZZZ", sqSeries)]

/-- A raw candle response with out-of-order timestamps [300, 100, 200]. -/
def demo312 : List Candle :=
  [⟨300, 3, 3, 3, 3, 3⟩, ⟨100, 1, 1, 1, 1, 1⟩, ⟨200, 2, 2, 2, 2, 2⟩]

/-- Two distinct candles sharing the timestamp 100. -/
def dupA : Candle := ⟨100, 1, 1, 1, 1, 1⟩

/-- Two distinct candles sharing the timestamp 100. -/
def dupB : Candle := ⟨100, 2, 2, 2, 2, 2⟩

/-- Helper: the guard of `calculate_metrics` taken, no snapshot. -/
lemma calculate_metrics_eq_none (df : List Candle) (h : df.length < 21) :
    calculate_metrics df = none := by
  unfold calculate_metrics
  exact if_pos (Or.inr h)

/-- Helper: the guard of `calculate_metrics` not taken, the full snapshot. -/
lemma calculate_metrics_eq_some (df : List Candle)
    (h : ¬(df.isEmpty = true ∨ df.length < 21)) :
    calculate_metrics df = some
      { price := lastClose df
        squeeze := bb_upper df < (kc_upper df : ℝ) ∧ (kc_lower df : ℝ) < bb_lower df
        bb_width := bb_upper df - bb_lower df
        volume_spike := vol_sma df < lastVol df
        change_24h := changePct df } := by
  unfold calculate_metrics
  exact if_neg h

/-- Helper: `scan` unfolded one step. -/
lemma scan_cons (s : String) (df : List Candle) (rest : List (String × List Candle)) :
    scan ((s, df) :: rest) =
    (match calculate_metrics df with
      | none => []
      | some m =>
        open Classical in
        if m.squeeze ∨ m.volume_spike then
          [{ Symbol := s
             Price := m.price
             Status := if m.squeeze then "🔥 SQUEEZE" else "⚠️ VOL SPIKE"
             Change := roundTo m.change_24h 2
             BBWidth := roundToR m.bb_width 4 }]
        else []) ++ scan rest := rfl

/-- Helper: a failed or short instrument contributes nothing to the scan. -/
lemma scan_cons_of_none (s : String) (df : List Candle)
    (rest : List (String × List Candle)) (h : calculate_metrics df = none) :
    scan ((s, df) :: rest) = scan rest := by
  rw [scan_cons, h]
  rfl

/-- Helper: scanning a concatenation scans the parts in order. -/
lemma scan_append (u v : List (String × List Candle)) :
    scan (u ++ v) = scan u ++ scan v := by
  induction u with
  | nil => rfl
  | cons p rest ih =>
      obtain ⟨s, df⟩ := p
      rw [List.cons_append, scan_cons, scan_cons, ih, List.append_assoc]

/-- Helper: zero sample variance of the squeeze demo series. -/
lemma sq_var : var20 sqSeries = 0 := by
  norm_num [sqSeries, var20, sampleVar, mean, last20, closes,
    List.replicate_succ, List.sum_cons]

/-- Helper: the moving average of the squeeze demo series. -/
lemma sq_sma : sma20 sqSeries = 100 := by
  norm_num [sqSeries, sma20, mean, last20, closes, List.replicate_succ, List.sum_cons]

/-- Helper: the average true range of the squeeze demo series. -/
lemma sq_atr : atr sqSeries = 2 := by
  norm_num [sqSeries, atr, mean, last20, trList, trAux, List.replicate_succ, List.sum_cons]

/-- Helper: the squeeze demo series is in a squeeze. -/
lemma sq_squeeze :
    bb_upper sqSeries < (kc_upper sqSeries : ℝ) ∧
      (kc_lower sqSeries : ℝ) < bb_lower sqSeries := by
  rw [bb_upper, bb_lower, kc_upper, kc_lower, sq_var, sq_sma, sq_atr]
  rw [show ((0 : ℚ) : ℝ) = 0 by norm_num, Real.sqrt_zero]
  constructor <;> push_cast <;> norm_num

/-- Helper: the Bollinger width of the squeeze demo series is zero. -/
lemma sq_width : bb_upper sqSeries - bb_lower sqSeries = 0 := by
  rw [bb_upper, bb_lower, sq_var]
  rw [show ((0 : ℚ) : ℝ) = 0 by norm_num, Real.sqrt_zero]
  ring

/-- Helper: the scan row of the squeeze demo series under any symbol. -/
lemma scan_cons_sq (s : String) (rest : List (String × List Candle)) :
    scan ((s, sqSeries) :: rest) = ⟨s, 100, "🔥 SQUEEZE", 0, 0⟩ :: scan rest := by
  rw [scan_cons, calculate_metrics_eq_some sqSeries (by decide)]
  simp only
  rw [if_pos (Or.inl sq_squeeze), if_pos sq_squeeze]
  have hpr : lastClose sqSeries = 100 := by
    norm_num [sqSeries, lastClose, closes, List.replicate_succ]
  have hch : changePct sqSeries = 0 := by
    norm_num [sqSeries, changePct, lastClose, refClose, closes, List.replicate_succ]
  rw [hpr, hch, sq_width]
  norm_num [roundTo, roundToR]

/-- Helper: zero sample variance of the volume-spike demo series. -/
lemma vs_var : var20 vsSeries = 0 := by
  norm_num [vsSeries, var20, sampleVar, mean, last20, closes,
    List.replicate_succ, List.sum_cons]

/-- Helper: the moving average of the volume-spike demo series. -/
lemma vs_sma : sma20 vsSeries = 100 := by
  norm_num [vsSeries, sma20, mean, last20, closes, List.replicate_succ, List.sum_cons]

/-- Helper: the average true range of the volume-spike demo series. -/
lemma vs_atr : atr vsSeries = 0 := by
  norm_num [vsSeries, atr, mean, last20, trList, trAux, List.replicate_succ, List.sum_cons]

/-- Helper: the volume-spike demo series is not in a squeeze (its Bollinger
and Keltner bands coincide). -/
lemma vs_not_squeeze :
    ¬(bb_upper vsSeries < (kc_upper vsSeries : ℝ) ∧
      (kc_lower vsSeries : ℝ) < bb_lower vsSeries) := by
  rintro ⟨h1, -⟩
  rw [bb_upper, kc_upper, vs_var, vs_sma, vs_atr] at h1
  rw [show ((0 : ℚ) : ℝ) = 0 by norm_num, Real.sqrt_zero] at h1
  norm_num at h1

/-- Helper: the volume-spike demo series has a volume spike. -/
lemma vs_spike : vol_sma vsSeries < lastVol vsSeries := by
  norm_num [vsSeries, vol_sma, lastVol, vols, mean, last20,
    List.replicate_succ, List.sum_cons]

/-- Helper: the Bollinger width of the volume-spike demo series is zero. -/
lemma vs_width : bb_upper vsSeries - bb_lower vsSeries = 0 := by
  rw [bb_upper, bb_lower, vs_var]
  rw [show ((0 : ℚ) : ℝ) = 0 by norm_num, Real.sqrt_zero]
  ring

/-- Helper: the scan row of the volume-spike demo series under any symbol. -/
lemma scan_cons_vs (s : String) (rest : List (String × List Candle)) :
    scan ((s, vsSeries) :: rest) = ⟨s, 100, "⚠️ VOL SPIKE", 0, 0⟩ :: scan rest := by
  rw [scan_cons, calculate_metrics_eq_some vsSeries (by decide)]
  simp only
  rw [if_pos (Or.inr vs_spike), if_neg vs_not_squeeze]
  have hpr : lastClose vsSeries = 100 := by
    norm_num [vsSeries, lastClose, closes, List.replicate_succ]
  have hch : changePct vsSeries = 0 := by
    norm_num [vsSeries, changePct, lastClose, refClose, closes, List.replicate_succ]
  rw [hpr, hch, vs_width]
  norm_num [roundTo, roundToR]

/-- Helper: zero sample variance of the signal-free demo series. -/
lemma flat_var : var20 flatSeries = 0 := by
  norm_num [flatSeries, var20, sampleVar, mean, last20, closes,
    List.replicate_succ, List.sum_cons]

/-- Helper: the moving average of the signal-free demo series. -/
lemma flat_sma : sma20 flatSeries = 100 := by
  norm_num [flatSeries, sma20, mean, last20, closes, List.replicate_succ, List.sum_cons]

/-- Helper: the average true range of the signal-free demo series. -/
lemma flat_atr : atr flatSeries = 0 := by
  norm_num [flatSeries, atr, mean, last20, trList, trAux,
    List.replicate_succ, List.sum_cons]

/-- Helper: the Bollinger upper band of the signal-free demo series equals
its Keltner upper band (the boundary case). -/
lemma flat_bands_touch : bb_upper flatSeries = (kc_upper flatSeries : ℝ) := by
  rw [bb_upper, kc_upper, flat_var, flat_sma, flat_atr]
  rw [show ((0 : ℚ) : ℝ) = 0 by norm_num, Real.sqrt_zero]
  push_cast
  ring

/-- Helper: the signal-free demo series is not in a squeeze. -/
lemma flat_not_squeeze :
    ¬(bb_upper flatSeries < (kc_upper flatSeries : ℝ) ∧
      (kc_lower flatSeries : ℝ) < bb_lower flatSeries) := by
  rintro ⟨h1, -⟩
  rw [flat_bands_touch] at h1
  exact lt_irrefl _ h1

/-- Helper: the signal-free demo series has no volume spike. -/
lemma flat_not_spike : ¬(vol_sma flatSeries < lastVol flatSeries) := by
  norm_num [flatSeries, vol_sma, lastVol, vols, mean, last20,
    List.replicate_succ, List.sum_cons]

/-- Helper: the signal-free demo series contributes nothing to the scan. -/
lemma scan_cons_flat (s : String) (rest : List (String × List Candle)) :
    scan ((s, flatSeries) :: rest) = scan rest := by
  rw [scan_cons, calculate_metrics_eq_some flatSeries (by decide)]
  simp only
  rw [if_neg (fun h => h.elim flat_not_squeeze flat_not_spike)]
  rfl

/-- Helper: membership in the descending-volume insertion. -/
lemma mem_insertByVolDesc (tks : List (String × ℚ)) (p a : Product) (l : List Product) :
    a ∈ insertByVolDesc tks p l ↔ a = p ∨ a ∈ l := by
  induction l with
  | nil => simp [insertByVolDesc]
  | cons q rest ih =>
      rw [insertByVolDesc]
      split
      · simp only [List.mem_cons, ih]
        tauto
      · simp [List.mem_cons]

/-- Helper: the descending-volume insertion keeps a sorted list sorted. -/
lemma pairwise_insertByVolDesc (tks : List (String × ℚ)) (p : Product)
    (l : List Product)
    (h : l.Pairwise (fun a b => vol_map_get tks b.symbol ≤ vol_map_get tks a.symbol)) :
    (insertByVolDesc tks p l).Pairwise
      (fun a b => vol_map_get tks b.symbol ≤ vol_map_get tks a.symbol) := by
  induction l with
  | nil => simp [insertByVolDesc]
  | cons q rest ih =>
      rw [insertByVolDesc]
      rcases List.pairwise_cons.mp h with ⟨hq, hrest⟩
      split
      · rename_i hlt
        refine List.pairwise_cons.mpr ⟨?_, ih hrest⟩
        intro a ha
        rcases (mem_insertByVolDesc tks p a rest).mp ha with rfl | ha
        · exact le_of_lt hlt
        · exact hq a ha
      · rename_i hnlt
        refine List.pairwise_cons.mpr ⟨?_, h⟩
        intro a ha
        rcases List.mem_cons.mp ha with rfl | ha
        · exact not_lt.mp hnlt
        · exact le_trans (hq a ha) (not_lt.mp hnlt)

/-- Helper: inserting an element leaves every volume class of the list in
place — the inserted element lands in front of its own volume class. -/
lemma filter_insertByVolDesc (tks : List (String × ℚ)) (p : Product) (q : ℚ)
    (l : List Product) :
    (insertByVolDesc tks p l).filter (fun x => decide (vol_map_get tks x.symbol = q)) =
      if vol_map_get tks p.symbol = q
      then p :: l.filter (fun x => decide (vol_map_get tks x.symbol = q))
      else l.filter (fun x => decide (vol_map_get tks x.symbol = q)) := by
  induction l with
  | nil =>
      rw [insertByVolDesc]
      by_cases hpq : vol_map_get tks p.symbol = q
      · rw [if_pos hpq]
        simp [hpq]
      · rw [if_neg hpq]
        simp [hpq]
  | cons r rest ih =>
      rw [insertByVolDesc]
      split
      · rename_i hlt
        by_cases hpq : vol_map_get tks p.symbol = q
        · have hrq : ¬(vol_map_get tks r.symbol = q) := by
            intro hrq
            rw [hpq, hrq] at hlt
            exact lt_irrefl q hlt
          simp [List.filter_cons, ih, hpq, hrq]
        · simp [List.filter_cons, ih, hpq]
      · rename_i hnlt
        by_cases hpq : vol_map_get tks p.symbol = q
        · simp [List.filter_cons, hpq]
        · simp [List.filter_cons, hpq]

/-- Helper: membership in the descending-volume sort. -/
lemma mem_sortByVolDesc (tks : List (String × ℚ)) (a : Product) (l : List Product) :
    a ∈ sortByVolDesc tks l ↔ a ∈ l := by
  induction l with
  | nil => simp [sortByVolDesc]
  | cons p rest ih =>
      rw [sortByVolDesc, mem_insertByVolDesc, ih, List.mem_cons]

/-- Helper: the descending-volume sort sorts. -/
lemma pairwise_sortByVolDesc (tks : List (String × ℚ)) (l : List Product) :
    (sortByVolDesc tks l).Pairwise
      (fun a b => vol_map_get tks b.symbol ≤ vol_map_get tks a.symbol) := by
  induction l with
  | nil => simp [sortByVolDesc]
  | cons p rest ih => exact pairwise_insertByVolDesc tks p _ ih

/-- Helper: the descending-volume sort is stable — every volume class keeps
its original (catalog) order. -/
lemma filter_sortByVolDesc (tks : List (String × ℚ)) (q : ℚ) (l : List Product) :
    (sortByVolDesc tks l).filter (fun x => decide (vol_map_get tks x.symbol = q)) =
      l.filter (fun x => decide (vol_map_get tks x.symbol = q)) := by
  induction l with
  | nil => rfl
  | cons p rest ih =>
      rw [sortByVolDesc, filter_insertByVolDesc, ih, List.filter_cons]
      by_cases hpq : vol_map_get tks p.symbol = q
      · rw [if_pos hpq, if_pos (decide_eq_true hpq)]
      · rw [if_neg hpq, if_neg (by simpa using hpq)]

/-- Helper: with no ticker data every volume is 0 and the insertion is a
plain cons. -/
lemma insertByVolDesc_nil_tickers (p : Product) (l : List Product) :
    insertByVolDesc [] p l = p :: l := by
  cases l with
  | nil => rfl
  | cons q rest =>
      rw [insertByVolDesc, if_neg (by simp [vol_map_get])]

/-- Helper: with no ticker data the sort is the identity (all volumes 0). -/
lemma sortByVolDesc_nil_tickers (l : List Product) :
    sortByVolDesc [] l = l := by
  induction l with
  | nil => rfl
  | cons p rest ih =>
      rw [sortByVolDesc, ih, insertByVolDesc_nil_tickers]

/-- Helper: membership in the ascending-time insertion. -/
lemma mem_insertByTime (c a : Candle) (l : List Candle) :
    a ∈ insertByTime c l ↔ a = c ∨ a ∈ l := by
  induction l with
  | nil => simp [insertByTime]
  | cons d rest ih =>
      rw [insertByTime]
      split
      · simp only [List.mem_cons, ih]
        tauto
      · simp [List.mem_cons]

/-- Helper: the ascending-time insertion keeps a time-sorted list sorted. -/
lemma pairwise_insertByTime (c : Candle) (l : List Candle)
    (h : l.Pairwise (fun a b => a.time ≤ b.time)) :
    (insertByTime c l).Pairwise (fun a b => a.time ≤ b.time) := by
  induction l with
  | nil => simp [insertByTime]
  | cons d rest ih =>
      rw [insertByTime]
      rcases List.pairwise_cons.mp h with ⟨hd, hrest⟩
      split
      · rename_i hlt
        refine List.pairwise_cons.mpr ⟨?_, ih hrest⟩
        intro a ha
        rcases (mem_insertByTime c a rest).mp ha with rfl | ha
        · exact le_of_lt hlt
        · exact hd a ha
      · rename_i hnlt
        refine List.pairwise_cons.mpr ⟨?_, h⟩
        intro a ha
        rcases List.mem_cons.mp ha with rfl | ha
        · exact not_lt.mp hnlt
        · exact le_trans (not_lt.mp hnlt) (hd a ha)

/-- Helper: inserting a candle only adds that candle — the result is a
permutation of the cons.  This, not any tie order, is what every sort kind
guarantees. -/
lemma perm_insertByTime (c : Candle) (l : List Candle) :
    (insertByTime c l).Perm (c :: l) := by
  induction l with
  | nil => exact List.Perm.refl _
  | cons d rest ih =>
      rw [insertByTime]
      split
      · exact (ih.cons d).trans (List.Perm.swap c d rest)
      · exact List.Perm.refl _

/-- Helper: the time sort sorts ascending (non-strictly). -/
lemma pairwise_sort_values_time (l : List Candle) :
    (sort_values_time l).Pairwise (fun a b => a.time ≤ b.time) := by
  induction l with
  | nil => simp [sort_values_time]
  | cons c rest ih => exact pairwise_insertByTime c _ ih

/-- Helper: the time sort permutes the fetched rows — no candle is dropped
or invented, duplicates included. -/
lemma perm_sort_values_time (l : List Candle) :
    (sort_values_time l).Perm l := by
  induction l with
  | nil => exact List.Perm.refl _
  | cons c rest ih =>
      rw [sort_values_time]
      exact (perm_insertByTime c _).trans (ih.cons c)

/-- C5: the Indicator Engine returns no snapshot exactly when the series has
fewer than 21 candles; otherwise it returns the one fully-populated
`Metrics` record (the `Option` is the all-or-nothing sum type). -/
theorem calculate_metrics_none_iff (df : List Candle) :
    calculate_metrics df = none ↔ df.length < 21 := by
  unfold calculate_metrics
  split
  · rename_i h
    simp only [true_iff]
    rcases h with h | h
    · simp [List.isEmpty_iff] at h
      simp [h]
    · exact h
  · rename_i h
    simp only [reduceCtorEq, false_iff]
    exact fun hlt => h (Or.inr hlt)

/-- C6: for any series of at least 21 candles the snapshot exists and its
squeeze flag holds exactly when the Bollinger bands sit strictly inside the
Keltner channel, evaluated on the last candle; at the boundary
(`bb_upper = kc_upper`) the flag is off. -/
theorem squeeze_iff_bands_strictly_inside (df : List Candle) (h : 21 ≤ df.length) :
    ∃ m, calculate_metrics df = some m ∧
      (m.squeeze ↔ (bb_upper df < (kc_upper df : ℝ) ∧ (kc_lower df : ℝ) < bb_lower df)) ∧
      (bb_upper df = (kc_upper df : ℝ) → ¬m.squeeze) := by
  have hg : ¬(df.isEmpty = true ∨ df.length < 21) := by
    rintro (he | hl)
    · rw [List.isEmpty_iff] at he
      subst he
      simp at h
    · omega
  refine ⟨_, calculate_metrics_eq_some df hg, Iff.rfl, ?_⟩
  rintro heq ⟨h1, -⟩
  rw [heq] at h1
  exact lt_irrefl _ h1

/-- C6 witness: the squeeze criterion instantiated at a concrete 21-candle
series, one that in fact sits exactly on the boundary. -/
theorem squeeze_iff_bands_strictly_inside_witness :
    21 ≤ flatSeries.length ∧
    (∃ m, calculate_metrics flatSeries = some m ∧
      (m.squeeze ↔ (bb_upper flatSeries < (kc_upper flatSeries : ℝ) ∧
        (kc_lower flatSeries : ℝ) < bb_lower flatSeries)) ∧
      (bb_upper flatSeries = (kc_upper flatSeries : ℝ) → ¬m.squeeze)) :=
  ⟨by decide, squeeze_iff_bands_strictly_inside flatSeries (by decide)⟩

/-- C1 (amended): the percent-change entry of the snapshot is computed
against the close at row `length - 20` (`df.iloc[-20]`), which lies 19
candles before the last one, not 20. -/
theorem change_pct_uses_offset_19 (df : List Candle) (h : 21 ≤ df.length) :
    (calculate_metrics df).map Metrics.change_24h =
      some (((closes df).getLastD 0 - (closes df).getD (df.length - 20) 0) /
        (closes df).getD (df.length - 20) 0 * 100) := by
  have hg : ¬(df.isEmpty = true ∨ df.length < 21) := by
    rintro (he | hl)
    · rw [List.isEmpty_iff] at he
      subst he
      simp at h
    · omega
  rw [calculate_metrics_eq_some df hg]
  rfl

/-- C1 witness: on the synthetic series (twenty closes of 100, then 110)
the percent change is +10, as the spec expects. -/
theorem change_pct_uses_offset_19_witness :
    21 ≤ synthSeries.length ∧
    (calculate_metrics synthSeries).map Metrics.change_24h = some 10 := by
  refine ⟨by decide, ?_⟩
  rw [change_pct_uses_offset_19 synthSeries (by decide)]
  norm_num [synthSeries, closes, List.replicate_succ]

/-- C1 counterexample: on a 21-candle series with closes
`[200, 100, ..., 100, 110]` the code yields +10 (reference close 100 at
row 1) while the spec formula, whose reference is `close[n-20]` = 200 at
row 0, yields −45; so the claimed identity fails. -/
theorem change_pct_spec_formula_cex :
    (calculate_metrics cexSeries).map Metrics.change_24h = some 10 ∧
    spec_percent_change cexSeries = -45 ∧
    (calculate_metrics cexSeries).map Metrics.change_24h ≠
      some (spec_percent_change cexSeries) := by
  have h1 : (calculate_metrics cexSeries).map Metrics.change_24h = some 10 := by
    rw [calculate_metrics_eq_some cexSeries (by decide)]
    show some (changePct cexSeries) = some 10
    norm_num [cexSeries, changePct, lastClose, refClose, closes, List.replicate_succ]
  have h2 : spec_percent_change cexSeries = -45 := by
    norm_num [cexSeries, spec_percent_change, closes, List.replicate_succ]
  refine ⟨h1, h2, ?_⟩
  rw [h1, h2]
  intro hc
  exact absurd (Option.some.inj hc) (by norm_num)

/-- C3 (amended): the snapshot a long-enough series produces carries
exactly the five entries price, squeeze, bb_width, volume_spike,
change_24h; no trend-direction output exists. -/
theorem snapshot_has_no_trend_field (df : List Candle) (h : 21 ≤ df.length) :
    metricsKeys df = ["price", "squeeze", "bb_width", "volume_spike", "change_24h"] ∧
    "trend" ∉ metricsKeys df := by
  have hg : ¬(df.isEmpty = true ∨ df.length < 21) := by
    rintro (he | hl)
    · rw [List.isEmpty_iff] at he
      subst he
      simp at h
    · omega
  have hk : metricsKeys df =
      ["price", "squeeze", "bb_width", "volume_spike", "change_24h"] := by
    unfold metricsKeys
    exact if_neg hg
  refine ⟨hk, ?_⟩
  rw [hk]
  decide

/-- C3 witness: the five snapshot keys at a concrete 21-candle series. -/
theorem snapshot_has_no_trend_field_witness :
    21 ≤ sqSeries.length ∧
    (metricsKeys sqSeries =
      ["price", "squeeze", "bb_width", "volume_spike", "change_24h"] ∧
     "trend" ∉ metricsKeys sqSeries) :=
  ⟨by decide, snapshot_has_no_trend_field sqSeries (by decide)⟩

/-- C3 counterexample: a concrete 21-candle series produces a snapshot, and
that snapshot has no trend-direction entry of any name — its keys are
exactly the five of the source dict. -/
theorem snapshot_trend_cex :
    (calculate_metrics flatSeries).isSome = true ∧
    metricsKeys flatSeries =
      ["price", "squeeze", "bb_width", "volume_spike", "change_24h"] ∧
    "trend" ∉ metricsKeys flatSeries ∧
    "trend_direction" ∉ metricsKeys flatSeries := by
  refine ⟨?_, by decide, by decide, by decide⟩
  rw [calculate_metrics_eq_some flatSeries (by decide)]
  rfl

/-- C2 (amended): the scan hands its results to the presentation layer in
original scan order — scanning a concatenation concatenates the results,
with no reordering by Status; in particular a volume-spike instrument
scanned before a squeeze instrument stays ahead of it. -/
theorem results_keep_scan_order :
    (∀ u v : List (String × List Candle), scan (u ++ v) = scan u ++ scan v) ∧
    scan demoBA = [rowVolSpikeB, rowSqueezeA] ∧
    rowVolSpikeB.Status = "⚠️ VOL SPIKE" ∧ rowSqueezeA.Status = "🔥 SQUEEZE" := by
  refine ⟨scan_append, ?_, rfl, rfl⟩
  show scan (("BBB", vsSeries) :: ("AAA", sqSeries) :: []) = _
  rw [scan_cons_vs, scan_cons_sq]
  rfl

/-- C2 counterexample: for the input order [VolSpike:B, Squeeze:A] the
output order is [B, A] — the squeeze result does not precede the
volume-spike result, refuting the claimed stable sort by Status. -/
theorem results_unsorted_cex :
    scan demoBA = [rowVolSpikeB, rowSqueezeA] ∧
    rowVolSpikeB.Status = "⚠️ VOL SPIKE" ∧ rowSqueezeA.Status = "🔥 SQUEEZE" ∧
    scan demoBA ≠ [rowSqueezeA, rowVolSpikeB] := by
  have h : scan demoBA = [rowVolSpikeB, rowSqueezeA] := by
    show scan (("BBB", vsSeries) :: ("AAA", sqSeries) :: []) = _
    rw [scan_cons_vs, scan_cons_sq]
    rfl
  refine ⟨h, rfl, rfl, ?_⟩
  rw [h]
  intro hc
  simp only [List.cons.injEq] at hc
  have hsym : rowVolSpikeB.Symbol = rowSqueezeA.Symbol := by rw [hc.1]
  exact absurd hsym (by decide)

/-- C4 (amended): a failed catalog or ticker fetch makes the selector
return the empty universe without raising; but the scan block then shows
the same no-coins warning it shows when a non-empty universe produces zero
signals — the two cases are not reported distinctly. -/
theorem empty_universe_report :
    (∀ limit : ℕ, get_top_liquid_pairs none limit = []) ∧
    scanReport [] = no_coins_msg ∧
    scanReport [("WWW", flatSeries)] = no_coins_msg := by
  refine ⟨fun limit => rfl, rfl, ?_⟩
  rw [scanReport, scan_cons_flat]
  rfl

/-- C4 counterexample: the empty universe (as produced by a failed fetch)
and a non-empty universe with zero signals produce the same report. -/
theorem empty_universe_report_cex :
    get_top_liquid_pairs none 20 = [] ∧
    scan [("WWW", flatSeries)] = [] ∧
    ([("WWW", flatSeries)] : List (String × List Candle)) ≠ [] ∧
    scanReport [] = scanReport [("WWW", flatSeries)] := by
  have hs : scan [("WWW", flatSeries)] = [] := by
    rw [scan_cons_flat]
    rfl
  refine ⟨rfl, hs, by simp, ?_⟩
  rw [scanReport, scanReport, hs]
  rfl

/-- C9: a universe entry whose metrics are missing — failed fetch (empty
frame) or fewer than 21 candles — is skipped without affecting any other
entry, and on the 3-instrument demo universe (X fails, Y short, Z in a
squeeze) the scan completes with exactly the single row for Z, classified
SQUEEZE. -/
theorem scan_isolates_failures :
    (∀ (pre post : List (String × List Candle)) (a : String × List Candle),
        calculate_metrics a.2 = none →
        scan (pre ++ a :: post) = scan (pre ++ post)) ∧
    scan demoXYZ = [rowSqueezeZ] := by
  constructor
  · intro pre post a ha
    obtain ⟨s, df⟩ := a
    rw [scan_append, scan_append, scan_cons_of_none s df post ha]
  · show scan (("XXX", ([] : List Candle)) ::
        ("YYY", shortSeries) :: ("ZZZ", sqSeries) :: []) = _
    rw [scan_cons_of_none _ _ _ (calculate_metrics_eq_none [] (by decide)),
        scan_cons_of_none _ _ _ (calculate_metrics_eq_none shortSeries (by decide)),
        scan_cons_sq]
    rfl

/-- C10: `calculate_metrics` is not read-only on its input frame — on any
frame of at least 21 rows with the standard OHLCV columns it appends the
eleven derived columns in place (and re-assigns close, high, low), so the
caller's frame is changed; below 21 rows it returns early and the frame
keeps its columns. -/
theorem calculate_metrics_mutates_columns :
    (∀ k : ℕ, calculate_metrics_cols baseCols (21 + k) = baseCols ++ derivedCols) ∧
    baseCols ++ derivedCols ≠ baseCols ∧
    (∀ k : ℕ, k < 21 → calculate_metrics_cols baseCols k = baseCols) := by
  refine ⟨fun k => ?_, by decide, fun k hk => ?_⟩
  · unfold calculate_metrics_cols
    rw [if_neg (by omega)]
    decide
  · unfold calculate_metrics_cols
    rw [if_pos (Or.inr hk)]

/-- C7: the universe selector returns at most `limit` products, all of them
live USDT perpetuals, in descending 24h-volume order (symbols missing from
the ticker list count as volume 0), stably — every volume class keeps its
catalog order — and an empty ticker list (every volume 0) is no error: it
yields the first `limit` eligible products in catalog order. -/
theorem top_liquid_pairs_spec (prods : List Product)
    (tickers : List (String × ℚ)) (limit : ℕ) :
    (get_top_liquid_pairs (some (prods, tickers)) limit).length ≤ limit ∧
    (get_top_liquid_pairs (some (prods, tickers)) limit).all isEligiblePerp = true ∧
    (get_top_liquid_pairs (some (prods, tickers)) limit).Pairwise
      (fun a b => vol_map_get tickers b.symbol ≤ vol_map_get tickers a.symbol) ∧
    (∀ q : ℚ,
      (sortByVolDesc tickers (prods.filter isEligiblePerp)).filter
          (fun x => decide (vol_map_get tickers x.symbol = q)) =
        (prods.filter isEligiblePerp).filter
          (fun x => decide (vol_map_get tickers x.symbol = q))) ∧
    get_top_liquid_pairs (some (prods, [])) limit =
      (prods.filter isEligiblePerp).take limit := by
  refine ⟨?_, ?_, ?_, fun q => filter_sortByVolDesc tickers q _, ?_⟩
  · exact List.length_take_le limit _
  · refine List.all_eq_true.mpr fun x hx => ?_
    have hx2 : x ∈ sortByVolDesc tickers (prods.filter isEligiblePerp) :=
      List.take_subset limit _ hx
    exact List.of_mem_filter ((mem_sortByVolDesc tickers x _).mp hx2)
  · exact (pairwise_sortByVolDesc tickers _).sublist (List.take_sublist limit _)
  · show (sortByVolDesc [] (prods.filter isEligiblePerp)).take limit = _
    rw [sortByVolDesc_nil_tickers]

/-- C8 (amended): the candle builder sorts every fetched list ascending
(non-strictly) by timestamp before any indicator sees it — the out-of-order
demo [300,100,200], all timestamps distinct, comes out as [100,200,300] —
and the sorted series is a permutation of the fetched rows: duplicates are
neither rejected nor removed, so the consumed series is non-decreasing, not
strictly increasing.  (The order among equal timestamps is unspecified in
the source, whose default sort kind is unstable; each conjunct holds for
every admissible tie order.) -/
theorem historical_data_sorted_dups_kept :
    (∀ l : List Candle,
      (get_historical_data (some l)).Pairwise (fun a b => a.time ≤ b.time)) ∧
    (∀ l : List Candle, (get_historical_data (some l)).Perm l) ∧
    (get_historical_data (some demo312)).map Candle.time = [100, 200, 300] := by
  refine ⟨fun l => ?_, fun l => ?_, ?_⟩
  · simp only [get_historical_data]
    split
    · simp
    · exact pairwise_sort_values_time l
  · simp only [get_historical_data]
    split
    · rename_i h
      rw [List.isEmpty_iff.mp h]
    · exact perm_sort_values_time l
  · rfl

/-- C8 counterexample: two distinct candles sharing timestamp 100 both
survive `get_historical_data` — the duplicate is neither rejected nor
deduplicated, so the consumed series has a repeated timestamp and is not
strictly increasing.  Every conjunct is independent of the tie order the
unstable source sort happens to pick. -/
theorem historical_data_duplicate_cex :
    dupA ∈ get_historical_data (some [dupA, dupB]) ∧
    dupB ∈ get_historical_data (some [dupA, dupB]) ∧
    (get_historical_data (some [dupA, dupB])).map Candle.time = [100, 100] ∧
    dupA.time = dupB.time ∧ dupA ≠ dupB ∧
    ¬(get_historical_data (some [dupA, dupB])).Pairwise
      (fun a b => a.time < b.time) := by
  have h : get_historical_data (some [dupA, dupB]) = [dupA, dupB] := rfl
  refine ⟨?_, ?_, rfl, rfl, ?_, ?_⟩
  · rw [h]
    simp
  · rw [h]
    simp
  · intro heq
    simp [dupA, dupB] at heq
  · rw [h]
    intro hp
    have hlt := (List.pairwise_cons.mp hp).1 dupB (by simp)
    exact absurd hlt (by decide)
